import Mathlib

namespace AntigravityAgent

/-!
# Verification of the antigravity-agent core

A shallow embedding of the encrypted bundle codec and of the backup
lifecycle coordinator of the antigravity-agent repository, together with
theorems settling the specification claims about them.

Bytes are modelled as `Nat` values in a `List Nat`; fallible external
store calls are modelled as `Except String` results supplied as inputs.
-/

/-! ## Data model (spec section 3) -/

/-- One saved account: display name, opaque secret payload, optional
metadata (e-mail).  The payload is an uninterpreted byte string. -/
structure CredentialRecord where
  name : List Nat
  payload : List Nat
  email : Option (List Nat)

deriving DecidableEq, Repr

/-- An ordered collection of credential records plus a format version and
a creation timestamp. -/
structure CredentialBundle where
  version : Nat
  createdAt : Nat
  records : List CredentialRecord

deriving DecidableEq, Repr

/-- The on-disk artifact: format version, salt, nonce, ciphertext and
authentication tag. -/
structure EncryptedContainer where
  version : Nat
  salt : List Nat
  nonce : Nat
  ciphertext : List Nat
  tag : Nat

deriving DecidableEq, Repr

inductive CryptoError where
  | authenticationFailed
  | unsupportedVersion

deriving DecidableEq, Repr

/-! ## Serialization (deterministic, length-prefixed)

Modelled from the spec: the `BundleCodec` serialization step
("serializes the bundle deterministically", section 4.2); the concrete
`ConfigManager` / codec source is not under `src/`, only its callers. -/

/-- Length-prefixed byte list. -/
def lp (l : List Nat) : List Nat := l.length :: l

/-- Serialize an optional byte list: a presence flag followed by the
length-prefixed content when present. -/
def serOpt : Option (List Nat) → List Nat
  | none => [0]
  | some l => 1 :: lp l

/-- Serialize one credential record. -/
def serRecord (r : CredentialRecord) : List Nat :=
  lp r.name ++ lp r.payload ++ serOpt r.email

/-- Serialize a bundle: version, timestamp, record count, then the
records in order. -/
def serBundle (b : CredentialBundle) : List Nat :=
  b.version :: b.createdAt :: b.records.length :: (b.records.map serRecord).flatten

/-- Read one length-prefixed byte list, returning it and the rest. -/
def readLP : List Nat → Option (List Nat × List Nat)
  | [] => none
  | n :: rest => if n ≤ rest.length then some (rest.take n, rest.drop n) else none

/-- Read an optional byte list written by `serOpt`. -/
def readOpt : List Nat → Option (Option (List Nat) × List Nat)
  | 0 :: rest => some (none, rest)
  | 1 :: rest => (readLP rest).map (fun p => (some p.1, p.2))
  | _ => none

/-- Read one credential record written by `serRecord`. -/
def readRecord (l : List Nat) : Option (CredentialRecord × List Nat) := do
  let (nm, r1) ← readLP l
  let (pl, r2) ← readLP r1
  let (em, r3) ← readOpt r2
  pure (⟨nm, pl, em⟩, r3)

/-- Read `n` credential records in sequence. -/
def readRecords : Nat → List Nat → Option (List CredentialRecord × List Nat)
  | 0, l => some ([], l)
  | n + 1, l => do
      let (r, l1) ← readRecord l
      let (rs, l2) ← readRecords n l1
      pure (r :: rs, l2)

/-- Deserialize a bundle written by `serBundle`; the input must be
consumed exactly. -/
def readBundle : List Nat → Option CredentialBundle
  | v :: t :: n :: rest =>
      (readRecords n rest).bind fun p =>
        if p.2 = [] then some ⟨v, t, p.1⟩ else none
  | _ => none

/-! ## Key derivation, cipher and MAC

Modelled from the spec: `KeyDerivation.derive` is a pure deterministic
function of password and salt (section 4.1; the "deliberately slow" work
factor is not observable in a functional model); the cipher is a
keystream XOR and the authentication tag a keyed digest of the
ciphertext (section 4.2). -/

/-- Deterministic key derivation from password bytes and salt bytes. -/
def derive (password salt : List Nat) : Nat :=
  (password ++ salt).foldl (fun a b => a * 31 + b + 1) 7

/-- Keystream of a given length from key and nonce. -/
def keystream (key nonce len : Nat) : List Nat :=
  (List.range len).map fun i => Nat.xor key (nonce + i)

/-- Keyed authentication tag over the ciphertext. -/
def macTag (key nonce : Nat) (ct : List Nat) : Nat :=
  ct.foldl (fun a b => a * 131 + b + 3) (key * 2 + nonce)

/-- Current container format version. -/
def FORMAT_VERSION : Nat := 1

/-- Encode a bundle under a password; the fresh salt and nonce drawn for
this call are passed as explicit inputs standing for the randomness. -/
def encode (b : CredentialBundle) (password salt : List Nat) (nonce : Nat) :
    EncryptedContainer :=
  let key := derive password salt
  let pt := serBundle b
  let ct := List.zipWith Nat.xor pt (keystream key nonce pt.length)
  ⟨FORMAT_VERSION, salt, nonce, ct, macTag key nonce ct⟩

/-- Decode a container under a password: version check, tag
verification, then decrypt and deserialize.  Wrong password and tampered
data both surface as `authenticationFailed`. -/
def decode (c : EncryptedContainer) (password : List Nat) :
    Except CryptoError CredentialBundle :=
  if FORMAT_VERSION < c.version then .error .unsupportedVersion
  else
    let key := derive password c.salt
    if macTag key c.nonce c.ciphertext = c.tag then
      match readBundle
          (List.zipWith Nat.xor c.ciphertext
            (keystream key c.nonce c.ciphertext.length)) with
      | some b => .ok b
      | none => .error .authenticationFailed
    else .error .authenticationFailed

/-! ## Status messages and the config orchestrator (source part_007)

A status message is the two-field payload of the `showStatus` reporting
contract: text and an is-error flag. -/

/-- One `showStatus` payload: message text and error flag. -/
abbrev Msg := String × Bool

/-- Result record of `ConfigManager.decryptConfigData`. -/
structure DecryptResult where
  success : Bool
  message : String
  configData : Option CredentialBundle

deriving DecidableEq

/-- The single generic diagnosis surfaced on authentication failure. -/
def genericAuthMessage : String := "incorrect password or corrupted file"

/-- Modelled from the spec: `ConfigManager.decryptConfigData` (the
`config-export-manager` service is not under `src/`); it wraps
`decode` and, per spec section 4.2, reports one generic message on
`AuthenticationFailed`. -/
def decryptConfigData (data : EncryptedContainer) (password : List Nat) :
    DecryptResult :=
  match decode data password with
  | .ok bundle => ⟨true, "", some bundle⟩
  | .error .authenticationFailed => ⟨false, genericAuthMessage, none⟩
  | .error .unsupportedVersion => ⟨false, "unsupported version", none⟩

/-- The `onSubmit` continuation of `importConfig` (source part_007 lines
151-178): a progress status, then either a success status or the decrypt
failure message flagged as an error. -/
def importOnSubmit (data : EncryptedContainer) (password : List Nat) : List Msg :=
  let d := decryptConfigData data password
  match d.configData with
  | some cd =>
      [("正在解密配置文件...", false),
       ("配置文件导入成功 (版本: " ++ toString cd.version ++ ")", false)]
  | none =>
      [("正在解密配置文件...", false), (d.message, true)]

/-- `exportConfig` (source part_007 lines 190-226) up to the password
prompt: given whether the store reports exportable data, the statuses
emitted and whether the password dialog is opened. -/
def exportConfigStart (hasData : Bool) : List Msg × Bool :=
  if hasData then ([], true)
  else ([("没有找到任何用户信息，无法导出配置文件", true)], false)

/-! ## Backup lifecycle coordinator
(source `src/src/hooks/use-backup-management.ts` and the `ManageSection`
component in `src/unnamed/part_004`) -/

/-- The current user record returned by `get_current_antigravity_info`;
empty strings stand for absent (falsy) fields, matching the truthiness
checks of the source. -/
structure AntigravityCurrentUserInfo where
  apiKey : String
  userStatusProtoBinaryBase64 : String
  email : String

deriving DecidableEq

/-- The responses the external Tauri command surface would give during
one episode, supplied as inputs: first and second `list_backups`,
`get_current_antigravity_info`, `backup_antigravity_current_account`,
`delete_backup`, `clear_all_backups`. -/
structure StoreEnv where
  listResult : Except String (List String)
  listResult2 : Except String (List String)
  currentInfo : Except String AntigravityCurrentUserInfo
  backupResult : Except String String
  deleteResult : Except String Unit
  clearResult : Except String String

/-- Coordinator state owned by `useBackupManagement`. -/
structure CoordState where
  backups : List String
  isRefreshing : Bool
  isInitialLoading : Bool

deriving DecidableEq

/-- External store calls issued by an operation. -/
inductive Call where
  | listBackups
  | getCurrentInfo
  | backupAccount (email : String)
  | deleteBackup (name : String)
  | clearAllBackups

deriving DecidableEq

/-- Whether a call mutates the external store. -/
def Call.mutating : Call → Bool
  | .backupAccount _ => true
  | .deleteBackup _ => true
  | .clearAllBackups => true
  | _ => false

/-- Result of one coordinator operation: new state, statuses reported,
store calls issued. -/
structure OpResult where
  state : CoordState
  msgs : List Msg
  calls : List Call

deriving DecidableEq

/-- `autoBackupCurrentUser` (source lines 46-76): whether a backup was
written, the statuses shown, the calls issued; every store failure is
caught inside the function. -/
def autoBackupCurrentUser (env : StoreEnv) : Bool × List Msg × List Call :=
  match env.currentInfo with
  | .error e => (false, [("自动备份失败: " ++ e, true)], [.getCurrentInfo])
  | .ok info =>
      if info.apiKey ≠ "" ∨ info.userStatusProtoBinaryBase64 ≠ "" then
        match env.backupResult with
        | .ok _ =>
            (true, [("已自动备份当前用户: " ++ info.email, false)],
             [.getCurrentInfo, .backupAccount info.email])
        | .error e =>
            (false, [("自动备份失败: " ++ e, true)],
             [.getCurrentInfo, .backupAccount info.email])
      else (false, [("未检测到已登录的用户", false)], [.getCurrentInfo])

/-- `refreshBackupList` (source lines 89-124): fetch the list, then,
unless skipped, attempt the auto-backup and on success re-fetch; the
catch converts a failed fetch into one error status. -/
def refreshBackupList (skipAutoBackup : Bool) (env : StoreEnv) (s : CoordState) :
    OpResult :=
  match env.listResult with
  | .error e =>
      ⟨{ s with isInitialLoading := false },
       [("获取备份列表失败: " ++ e, true)], [.listBackups]⟩
  | .ok l =>
      let s1 := { s with backups := l }
      if skipAutoBackup then
        ⟨{ s1 with isInitialLoading := false }, [("刷新成功", false)], [.listBackups]⟩
      else
        match autoBackupCurrentUser env with
        | (true, msgs, calls) =>
            match env.listResult2 with
            | .error e =>
                ⟨{ s1 with isInitialLoading := false },
                 msgs ++ [("获取备份列表失败: " ++ e, true)],
                 .listBackups :: calls ++ [.listBackups]⟩
            | .ok l2 =>
                ⟨{ s1 with backups := l2, isInitialLoading := false },
                 msgs ++ [("刷新成功并已更新备份", false)],
                 .listBackups :: calls ++ [.listBackups]⟩
        | (false, msgs, calls) =>
            ⟨{ s1 with isInitialLoading := false }, msgs, .listBackups :: calls⟩

/-- `handleRefresh` (source lines 129-142): set the refreshing flag, run
a full refresh, clear the flag in the finally. -/
def handleRefresh (env : StoreEnv) (s : CoordState) : OpResult :=
  let r := refreshBackupList false env { s with isRefreshing := true }
  ⟨{ r.state with isRefreshing := false }, r.msgs, r.calls⟩

/-- Result of a `ManageSection` operation: coordinator state, that
operation's loading flag after its finally block, statuses, calls. -/
structure ManageResult where
  coord : CoordState
  busy : Bool
  msgs : List Msg
  calls : List Call

deriving DecidableEq

/-- `confirmDeleteBackup` (part_004 lines 29-48): delete, report, then
`onRefresh(true)` (which is `refreshBackupList` with auto-backup
skipped); a store failure is caught and reported. -/
def confirmDeleteBackup (env : StoreEnv) (coord : CoordState)
    (backupToDelete : String) : ManageResult :=
  match env.deleteResult with
  | .ok _ =>
      let r := refreshBackupList true env coord
      ⟨r.state, false,
       ("备份 \"" ++ backupToDelete ++ "\" 删除成功", false) :: r.msgs,
       .deleteBackup backupToDelete :: r.calls⟩
  | .error e =>
      ⟨coord, false, [("删除备份失败: " ++ e, true)],
       [.deleteBackup backupToDelete]⟩

/-- `handleClearAllBackups` (part_004 lines 69-75): on an empty list,
report an error-flagged status and stop; otherwise open the confirm
dialog.  Returns whether the dialog opened and the statuses shown. -/
def handleClearAllBackups (coord : CoordState) : Bool × List Msg :=
  if coord.backups.isEmpty then (false, [("当前没有用户备份可清空", true)])
  else (true, [])

/-- `confirmClearAllBackups` (part_004 lines 77-93): clear all, report
the store's own result string, then `onRefresh(true)`; a store failure
is caught and reported. -/
def confirmClearAllBackups (env : StoreEnv) (coord : CoordState) : ManageResult :=
  match env.clearResult with
  | .ok result =>
      let r := refreshBackupList true env coord
      ⟨r.state, false, (result, false) :: r.msgs, .clearAllBackups :: r.calls⟩
  | .error e =>
      ⟨coord, false, [("清空备份失败: " ++ e, true)], [.clearAllBackups]⟩

/-- Modelled from the spec: the host `delete backup` command (external
interfaces table, section 6) is not under `src/`; deleting is not
no-op-safe — "not found" is an error. -/
def deleteBackupStore (store : List String) (name : String) :
    Except String (List String) :=
  if name ∈ store then .ok (store.erase name) else .error "backup not found"

/-- Modelled from the spec: the host `clear all backups` command
(section 6) returns the count removed; clearing an empty store removes
zero entries and is a normal result, not an error. -/
def clearAllBackupsStore (store : List String) : Except String Nat :=
  .ok store.length

/-! ## Write synchronization trace (claim C3)

The source waits out a fixed delay between the auto-backup write and the
re-read instead of an acknowledgment from the write. -/

/-- Milliseconds slept after the auto-backup write (source line 11,
`FILE_WRITE_DELAY_MS`). -/
def FILE_WRITE_DELAY_MS : Nat := 500

/-- Synchronization-level events of a refresh. -/
inductive SyncEv where
  | storeCall (command : String)
  | sleepMs (n : Nat)
  | awaitWriteAck

deriving DecidableEq

/-- `waitForFileWrite` (source lines 81-83): a bare fixed sleep. -/
def waitForFileWrite : List SyncEv := [.sleepMs FILE_WRITE_DELAY_MS]

/-- The store-call / wait sequence of a `refreshBackupList(false)` whose
auto-backup write succeeds (source lines 89-104): list, current-user
read, backup write, `waitForFileWrite`, re-read. -/
def refreshSyncSequence : List SyncEv :=
  [.storeCall "list_backups", .storeCall "get_current_antigravity_info",
   .storeCall "backup_antigravity_current_account"] ++ waitForFileWrite ++
  [.storeCall "list_backups"]

/-! ## Cooperative interleaving of two refreshes (claim C2)

`handleRefresh` sets `isRefreshing` but never consults it, so a second
call entered while the first awaits its list fetch issues its own
fetch. -/

/-- Scheduler-visible events of one `handleRefresh` call. -/
inductive REv where
  | checkBusyAbort
  | setRefreshing (b : Bool)
  | issueListFetch
  | listFetchDone
  | issueGetInfo
  | getInfoDone
  | finishRefresh

deriving DecidableEq

/-- The atomic blocks of one `handleRefresh` call between await
suspension points (no-active-account path, source lines 129-142 and
89-124): the flag is set and the list fetch issued synchronously, with
no busy check at entry. -/
def handleRefreshBlocks : List (List REv) :=
  [[.setRefreshing true, .issueListFetch],
   [.listFetchDone, .issueGetInfo],
   [.getInfoDone, .setRefreshing false, .finishRefresh]]

/-- Cooperative interleaving of the atomic blocks of two tasks under a
schedule; `true` runs the next pending block of the first task. -/
def exec : List Bool → List (List REv) → List (List REv) → List (Bool × REv)
  | [], _, _ => []
  | true :: sch, [], bs => exec sch [] bs
  | true :: sch, a :: as, bs => a.map (fun e => (true, e)) ++ exec sch as bs
  | false :: sch, as, [] => exec sch as []
  | false :: sch, as, b :: bs => b.map (fun e => (false, e)) ++ exec sch as bs

/-- Number of list fetches issued in a trace. -/
def fetchesIssued (t : List (Bool × REv)) : Nat :=
  (t.filter fun p => p.2 == REv.issueListFetch).length

/-- Number of list fetches completed in a trace. -/
def fetchesDone (t : List (Bool × REv)) : Nat :=
  (t.filter fun p => p.2 == REv.listFetchDone).length

/-- The double-click execution: the second `handleRefresh` is entered
while the first still awaits its `list_backups` call. -/
def doubleRefreshTrace : List (Bool × REv) :=
  exec [true, false, true, false, true, false] handleRefreshBlocks handleRefreshBlocks

/-! ## Password policy and prompt configuration (claims C7, C8) -/

/-- Validation outcome of the shared password policy. -/
structure ValidationResult where
  isValid : Bool
  message : String

deriving DecidableEq

/-- One password dialog configuration as passed to `showPasswordDialog`
(part_007): title, whether the entry must be confirmed, and the
validator. -/
structure PasswordDialogConfig where
  title : String
  requireConfirmation : Bool
  validate : String → ValidationResult

/-- The dialog configuration `importConfig` builds (part_007 lines
146-150), parameterized by the config manager's shared validator. -/
def importDialogConfig (validatePassword : String → ValidationResult) :
    PasswordDialogConfig :=
  ⟨"导入配置文件", false, validatePassword⟩

/-- The dialog configuration `exportConfig` builds (part_007 lines
199-203), parameterized by the same shared validator. -/
def exportDialogConfig (validatePassword : String → ValidationResult) :
    PasswordDialogConfig :=
  ⟨"导出配置文件", true, validatePassword⟩

/-- Outcome of one password prompt round. -/
inductive PromptOutcome where
  | accepted (password : String)
  | rejectedInvalid (message : String)

deriving DecidableEq

/-- Modelled from the spec: the password-prompt contract (sections 4.4
and 6) — the `PasswordDialog` component is not under `src/`.  With
confirmation required the password is collected twice and a mismatch is
treated the same as an invalid password. -/
def promptSubmit (cfg : PasswordDialogConfig) (entry confirmEntry : String) :
    PromptOutcome :=
  if cfg.requireConfirmation ∧ entry ≠ confirmEntry then
    .rejectedInvalid "passwords do not match"
  else
    let v := cfg.validate entry
    if v.isValid then .accepted entry else .rejectedInvalid v.message

/-- A coordinator state used as concrete input. -/
def s0 : CoordState := ⟨["a"], false, true⟩

/-- A user record with an API key present. -/
def okInfo : AntigravityCurrentUserInfo := ⟨"key", "", "user-example"⟩

/-- A user record with every field falsy (no active account). -/
def noUserInfo : AntigravityCurrentUserInfo := ⟨"", "", ""⟩

/-- An episode in which every store call fails. -/
def errEnv : StoreEnv :=
  ⟨.error "boom", .error "boom", .error "boom", .error "boom", .error "boom", .error "boom"⟩

/-- List fetch succeeds, the current-user read fails. -/
def envReadFail : StoreEnv :=
  ⟨.ok ["a"], .error "boom", .error "boom", .error "boom", .error "del", .error "clr"⟩

/-- List fetch and current-user read succeed, the backup write fails. -/
def envWriteFail : StoreEnv :=
  ⟨.ok ["a"], .error "boom", .ok okInfo, .error "boom", .error "del", .error "clr"⟩

/-- Auto-backup write succeeds but the re-read of the list fails. -/
def envRefetchFail : StoreEnv :=
  ⟨.ok ["a"], .error "boom", .ok okInfo, .ok "done", .error "del", .error "clr"⟩

/-- No active account is logged in; mutating calls succeed. -/
def envNoUser : StoreEnv :=
  ⟨.ok ["a"], .ok ["a"], .ok noUserInfo, .ok "r", .ok (), .ok "cleared"⟩

/-- The empty coordinator state. -/
def emptyCoord : CoordState := ⟨[], false, false⟩

/-! ## Theorems -/

/-! ## Serialization round-trip lemmas -/

theorem readLP_lp (l rest : List Nat) : readLP (lp l ++ rest) = some (l, rest) := by
  simp [lp, readLP, List.take_left, List.drop_left, Nat.le_add_right]

theorem readOpt_serOpt (o : Option (List Nat)) (rest : List Nat) :
    readOpt (serOpt o ++ rest) = some (o, rest) := by
  cases o with
  | none => simp [serOpt, readOpt]
  | some l => simp [serOpt, readOpt, readLP_lp]

theorem readRecord_serRecord (r : CredentialRecord) (rest : List Nat) :
    readRecord (serRecord r ++ rest) = some (r, rest) := by
  simp [serRecord, readRecord, List.append_assoc, readLP_lp, readOpt_serOpt]

theorem readRecords_serRecords (rs : List CredentialRecord) (rest : List Nat) :
    readRecords rs.length ((rs.map serRecord).flatten ++ rest) = some (rs, rest) := by
  induction rs with
  | nil => simp [readRecords]
  | cons r tl ih =>
      simp [readRecords, List.append_assoc, readRecord_serRecord, ih]

theorem readBundle_serBundle (b : CredentialBundle) :
    readBundle (serBundle b) = some b := by
  have h := readRecords_serRecords b.records []
  simp only [List.append_nil] at h
  simp [serBundle, readBundle, h]

theorem zipWith_xor_cancel (pt ks : List Nat) :
    List.zipWith Nat.xor (List.zipWith Nat.xor pt ks) ks = pt.take ks.length := by
  induction pt generalizing ks with
  | nil => simp
  | cons p tl ih =>
      cases ks with
      | nil => simp
      | cons k ktl =>
          have hx : Nat.xor (Nat.xor p k) k = p := Nat.xor_cancel_right k p
          simp [List.zipWith, ih, hx]

/-- The container really carries a keystream of the plaintext's length. -/
theorem keystream_length (key nonce len : Nat) : (keystream key nonce len).length = len := by
  simp [keystream]

theorem encode_ciphertext_length (b : CredentialBundle) (password salt : List Nat)
    (nonce : Nat) : (encode b password salt nonce).ciphertext.length = (serBundle b).length := by
  simp [encode, List.length_zipWith, keystream_length]

theorem decode_encode_aux (b : CredentialBundle) (password salt : List Nat) (nonce : Nat) :
    List.zipWith Nat.xor
      (List.zipWith Nat.xor (serBundle b)
        (keystream (derive password salt) nonce (serBundle b).length))
      (keystream (derive password salt) nonce (serBundle b).length) = serBundle b := by
  rw [zipWith_xor_cancel, keystream_length, List.take_length]

/-- C1: for every credential bundle and password (and any fresh salt and
nonce drawn for the call), decoding the container produced by `encode`
under the same password returns a bundle equal to the original, the
opaque secret payload of every record included. -/
theorem decode_encode (b : CredentialBundle) (password salt : List Nat) (nonce : Nat) :
    decode (encode b password salt nonce) password = .ok b := by
  simp [decode, encode, List.length_zipWith, keystream_length,
    decode_encode_aux, readBundle_serBundle, FORMAT_VERSION]

/-! ## Claim theorems -/

/-- C2: refutation of single-flight at a concrete double-click input —
the source has no busy check (`checkBusyAbort` never occurs in
`handleRefreshBlocks`), and in the execution where the second
`handleRefresh` is entered while the first awaits its list fetch, two
list fetches are outstanding at once: after four events both tasks have
issued a fetch and neither has completed, so the second call neither
joined the first's result nor was rejected. -/
theorem two_refreshes_overlap :
    REv.checkBusyAbort ∉ handleRefreshBlocks.flatten ∧
    fetchesIssued (doubleRefreshTrace.take 4) = 2 ∧
    fetchesDone (doubleRefreshTrace.take 4) = 0 ∧
    fetchesIssued doubleRefreshTrace = 2 := by
  decide

/-- C3: the synchronization step between a successful auto-backup write
and the snapshot re-read is the fixed artificial delay
`FILE_WRITE_DELAY_MS = 500` milliseconds (`waitForFileWrite`), not an
explicit write acknowledgment: the refresh sequence contains the sleep
and contains no wait on a completion acknowledgment. -/
theorem refresh_uses_fixed_delay :
    FILE_WRITE_DELAY_MS = 500 ∧
    waitForFileWrite = [SyncEv.sleepMs 500] ∧
    SyncEv.sleepMs FILE_WRITE_DELAY_MS ∈ refreshSyncSequence ∧
    SyncEv.awaitWriteAck ∉ refreshSyncSequence := by
  refine ⟨rfl, rfl, ?_, ?_⟩
  · simp [refreshSyncSequence, waitForFileWrite]
  · simp [refreshSyncSequence, waitForFileWrite]

/-- C4: whenever decoding fails with `authenticationFailed` — wrong
password or tampered file alike — the import flow surfaces exactly one
error-flagged status, and it is the single generic message
`genericAuthMessage`, never a more specific diagnosis. -/
theorem import_auth_failure_generic (data : EncryptedContainer) (pw : List Nat)
    (h : decode data pw = .error .authenticationFailed) :
    (importOnSubmit data pw).filter (fun m => m.2) = [(genericAuthMessage, true)] := by
  simp [importOnSubmit, decryptConfigData, h]

/-- Closed witness for C4: a concrete container whose tag does not
verify is decoded as `authenticationFailed` and the import flow shows
exactly the generic message. -/
theorem import_auth_failure_generic_witness :
    (importOnSubmit ⟨1, [], 0, [], 999⟩ [1]).filter (fun m => m.2) =
      [(genericAuthMessage, true)] :=
  import_auth_failure_generic ⟨1, [], 0, [], 999⟩ [1] (by rfl)

/-- C5: every coordinator operation that fails with a store error —
refresh (initial list fetch), auto-backup read or write inside a
refresh, the post-backup re-read, delete, and clear-all — leaves the
previously published backup list untouched (never partially
overwritten), reports the failure via exactly one status message, and
leaves no loading flag set. -/
theorem store_failure_semantics (env : StoreEnv) (s : CoordState) (name e : String) :
    (env.listResult = .error e →
       (handleRefresh env s).state.backups = s.backups ∧
       (handleRefresh env s).msgs = [("获取备份列表失败: " ++ e, true)] ∧
       (handleRefresh env s).state.isRefreshing = false ∧
       (handleRefresh env s).state.isInitialLoading = false) ∧
    (∀ l, env.listResult = .ok l → env.currentInfo = .error e →
       (handleRefresh env s).state.backups = l ∧
       (handleRefresh env s).msgs = [("自动备份失败: " ++ e, true)] ∧
       (handleRefresh env s).state.isRefreshing = false ∧
       (handleRefresh env s).state.isInitialLoading = false) ∧
    (∀ l info, env.listResult = .ok l → env.currentInfo = .ok info →
       info.apiKey ≠ "" → env.backupResult = .error e →
       (handleRefresh env s).state.backups = l ∧
       (handleRefresh env s).msgs = [("自动备份失败: " ++ e, true)] ∧
       (handleRefresh env s).state.isRefreshing = false) ∧
    (∀ l info r, env.listResult = .ok l → env.currentInfo = .ok info →
       info.apiKey ≠ "" → env.backupResult = .ok r → env.listResult2 = .error e →
       (handleRefresh env s).state.backups = l ∧
       ((handleRefresh env s).msgs.filter fun m => m.2) =
         [("获取备份列表失败: " ++ e, true)] ∧
       (handleRefresh env s).state.isRefreshing = false) ∧
    (env.deleteResult = .error e →
       (confirmDeleteBackup env s name).coord = s ∧
       (confirmDeleteBackup env s name).msgs = [("删除备份失败: " ++ e, true)] ∧
       (confirmDeleteBackup env s name).busy = false) ∧
    (env.clearResult = .error e →
       (confirmClearAllBackups env s).coord = s ∧
       (confirmClearAllBackups env s).msgs = [("清空备份失败: " ++ e, true)] ∧
       (confirmClearAllBackups env s).busy = false) := by
  refine ⟨?_, ?_, ?_, ?_, ?_, ?_⟩
  · intro h
    simp [handleRefresh, refreshBackupList, h]
  · intro l h1 h2
    simp [handleRefresh, refreshBackupList, autoBackupCurrentUser, h1, h2]
  · intro l info h1 h2 h3 h4
    simp [handleRefresh, refreshBackupList, autoBackupCurrentUser, h1, h2, h3, h4]
  · intro l info r h1 h2 h3 h4 h5
    simp [handleRefresh, refreshBackupList, autoBackupCurrentUser,
      h1, h2, h3, h4, h5]
  · intro h
    simp [confirmDeleteBackup, h]
  · intro h
    simp [confirmClearAllBackups, h]

/-- Closed witness for C5: the failure conjuncts evaluated at concrete
failing stores. -/
theorem store_failure_semantics_witness :
    ((handleRefresh errEnv s0).state.backups = s0.backups ∧
     (handleRefresh errEnv s0).msgs = [("获取备份列表失败: " ++ "boom", true)] ∧
     (handleRefresh errEnv s0).state.isRefreshing = false ∧
     (handleRefresh errEnv s0).state.isInitialLoading = false) ∧
    (handleRefresh envReadFail s0).msgs = [("自动备份失败: " ++ "boom", true)] ∧
    (handleRefresh envWriteFail s0).msgs = [("自动备份失败: " ++ "boom", true)] ∧
    ((handleRefresh envRefetchFail s0).msgs.filter fun m => m.2) =
      [("获取备份列表失败: " ++ "boom", true)] ∧
    (confirmDeleteBackup envReadFail s0 "n").msgs = [("删除备份失败: " ++ "del", true)] ∧
    (confirmClearAllBackups envReadFail s0).coord = s0 := by
  refine ⟨(store_failure_semantics errEnv s0 "n" "boom").1 rfl,
    ((store_failure_semantics envReadFail s0 "n" "boom").2.1 ["a"] rfl rfl).2.1,
    ((store_failure_semantics envWriteFail s0 "n" "boom").2.2.1 ["a"] okInfo rfl rfl
      (by decide) rfl).2.1,
    ((store_failure_semantics envRefetchFail s0 "n" "boom").2.2.2.1 ["a"] okInfo "done"
      rfl rfl (by decide) rfl rfl).2.1,
    ((store_failure_semantics envReadFail s0 "n" "del").2.2.2.2.1 rfl).2.1,
    ((store_failure_semantics envReadFail s0 "n" "clr").2.2.2.2.2 rfl).1⟩

/-- C6 counterexample: on the empty backup list the clear-all entry
point emits a status whose error flag is `true` — it is reported as an
error, not as a normal zero-removed outcome — and the store is never
asked to clear (the confirm dialog never opens). -/
theorem clear_all_empty_reports_error :
    handleClearAllBackups emptyCoord = (false, [("当前没有用户备份可清空", true)]) ∧
    ((handleClearAllBackups emptyCoord).2.any fun m => m.2) = true := by
  refine ⟨rfl, rfl⟩

/-- C6 (amended): deleting a name that is absent from the store reports
an error, not a silent success — the host command fails and the delete
flow surfaces exactly one error status — while a clear-all requested on
an empty backup list is rejected up front with an error-flagged status
and the store is never asked to clear. -/
theorem delete_absent_errors (env : StoreEnv) (coord : CoordState)
    (store : List String) (name e : String) :
    (name ∉ store → deleteBackupStore store name = .error "backup not found") ∧
    (env.deleteResult = .error e →
       (confirmDeleteBackup env coord name).msgs =
         [("删除备份失败: " ++ e, true)]) ∧
    (coord.backups = [] →
       handleClearAllBackups coord = (false, [("当前没有用户备份可清空", true)])) := by
  refine ⟨?_, ?_, ?_⟩
  · intro h
    simp [deleteBackupStore, h]
  · intro h
    simp [confirmDeleteBackup, h]
  · intro h
    simp [handleClearAllBackups, h]

/-- Closed witness for C6: the second delete of the same name fails in
the store, the flow reports it, and clear-all on empty is rejected. -/
theorem delete_absent_errors_witness :
    deleteBackupStore [] "n" = .error "backup not found" ∧
    (confirmDeleteBackup envReadFail s0 "n").msgs =
      [("删除备份失败: " ++ "del", true)] ∧
    handleClearAllBackups emptyCoord = (false, [("当前没有用户备份可清空", true)]) :=
  ⟨(delete_absent_errors envReadFail s0 [] "n" "del").1 (by simp),
   (delete_absent_errors envReadFail s0 [] "n" "del").2.1 rfl,
   (delete_absent_errors envReadFail emptyCoord [] "n" "del").2.2 rfl⟩

/-- C7: when the external store reports no exportable data the export
flow emits one user-facing error status and never opens the password
prompt; the prompt opens exactly when exportable data exists. -/
theorem export_empty_fails_fast (hasData : Bool) :
    (hasData = false →
       exportConfigStart hasData =
         ([("没有找到任何用户信息，无法导出配置文件", true)], false)) ∧
    ((exportConfigStart hasData).2 = true ↔ hasData = true) := by
  cases hasData <;> simp [exportConfigStart]

/-- Closed witness for C7: evaluated with and without exportable data. -/
theorem export_empty_fails_fast_witness :
    exportConfigStart false =
      ([("没有找到任何用户信息，无法导出配置文件", true)], false) ∧
    (exportConfigStart true).2 = true :=
  ⟨(export_empty_fails_fast false).1 rfl, (export_empty_fails_fast true).2.mpr rfl⟩

/-- C8: the export flow requests the password with confirmation
required and the import flow with confirmation not required, both
carrying the same shared validator; under the export configuration a
confirmation mismatch is rejected like an invalid password. -/
theorem password_prompt_configs (v : String → ValidationResult) (p q : String) :
    (exportDialogConfig v).requireConfirmation = true ∧
    (importDialogConfig v).requireConfirmation = false ∧
    (exportDialogConfig v).validate = (importDialogConfig v).validate ∧
    (p ≠ q → promptSubmit (exportDialogConfig v) p q =
       .rejectedInvalid "passwords do not match") := by
  refine ⟨rfl, rfl, rfl, ?_⟩
  intro h
  simp [promptSubmit, exportDialogConfig, h]

/-- Closed witness for C8: a concrete mismatch under the export
configuration is rejected. -/
theorem password_prompt_configs_witness :
    promptSubmit (exportDialogConfig fun _ => ⟨true, ""⟩) "a" "b" =
      .rejectedInvalid "passwords do not match" :=
  (password_prompt_configs (fun _ => ⟨true, ""⟩) "a" "b").2.2.2 (by decide)

/-- C9: the follow-up refresh of a destructive operation always runs
with auto-backup skipped and issues only the read; a successful delete
or clear-all performs exactly its own single mutating call followed by
that read, and in every outcome the operation's mutating calls are
exactly the one delete (respectively clear). -/
theorem destructive_ops_single_mutation (env : StoreEnv) (coord : CoordState)
    (name : String) :
    (refreshBackupList true env coord).calls = [Call.listBackups] ∧
    (env.deleteResult = .ok () →
       (confirmDeleteBackup env coord name).calls =
         [Call.deleteBackup name, Call.listBackups]) ∧
    (confirmDeleteBackup env coord name).calls.filter Call.mutating =
      [Call.deleteBackup name] ∧
    (∀ r, env.clearResult = .ok r →
       (confirmClearAllBackups env coord).calls =
         [Call.clearAllBackups, Call.listBackups]) ∧
    (confirmClearAllBackups env coord).calls.filter Call.mutating =
      [Call.clearAllBackups] := by
  have href : (refreshBackupList true env coord).calls = [Call.listBackups] := by
    cases h : env.listResult <;> simp [refreshBackupList, h]
  refine ⟨href, ?_, ?_, ?_, ?_⟩
  · intro h
    simp [confirmDeleteBackup, h, href]
  · cases h : env.deleteResult <;>
      simp [confirmDeleteBackup, h, href, Call.mutating, List.filter]
  · intro r h
    simp [confirmClearAllBackups, h, href]
  · cases h : env.clearResult <;>
      simp [confirmClearAllBackups, h, href, Call.mutating, List.filter]

/-- Closed witness for C9: a successful delete and a successful
clear-all each issue exactly one mutating call and one follow-up read. -/
theorem destructive_ops_single_mutation_witness :
    (confirmDeleteBackup envNoUser s0 "n").calls =
      [Call.deleteBackup "n", Call.listBackups] ∧
    (confirmClearAllBackups envNoUser s0).calls =
      [Call.clearAllBackups, Call.listBackups] :=
  ⟨(destructive_ops_single_mutation envNoUser s0 "n").2.1 rfl,
   (destructive_ops_single_mutation envNoUser s0 "n").2.2.2.1 "cleared" rfl⟩

/-- C10: the auto-backup step is total at the coordinator interface:
a current-user read failure, a backup write failure, and the
no-active-account case each yield `false` with exactly one status — the
error flag set for the store failures, clear for the no-account case —
and whenever auto-backup yields `false` the enclosing refresh still
completes and publishes the list read in its first step. -/
theorem auto_backup_total (env : StoreEnv) (s : CoordState) (e : String)
    (info : AntigravityCurrentUserInfo) :
    (env.currentInfo = .error e →
       autoBackupCurrentUser env =
         (false, [("自动备份失败: " ++ e, true)], [Call.getCurrentInfo])) ∧
    (env.currentInfo = .ok info →
       (info.apiKey ≠ "" ∨ info.userStatusProtoBinaryBase64 ≠ "") →
       env.backupResult = .error e →
       autoBackupCurrentUser env =
         (false, [("自动备份失败: " ++ e, true)],
          [Call.getCurrentInfo, Call.backupAccount info.email])) ∧
    (env.currentInfo = .ok info → info.apiKey = "" →
       info.userStatusProtoBinaryBase64 = "" →
       autoBackupCurrentUser env =
         (false, [("未检测到已登录的用户", false)], [Call.getCurrentInfo])) ∧
    (∀ l, env.listResult = .ok l → (autoBackupCurrentUser env).1 = false →
       (refreshBackupList false env s).state.backups = l ∧
       (refreshBackupList false env s).state.isInitialLoading = false ∧
       (refreshBackupList false env s).msgs = (autoBackupCurrentUser env).2.1) := by
  refine ⟨?_, ?_, ?_, ?_⟩
  · intro h
    simp [autoBackupCurrentUser, h]
  · intro h1 h2 h3
    rcases h2 with h2 | h2 <;> simp [autoBackupCurrentUser, h1, h2, h3]
  · intro h1 h2 h3
    simp [autoBackupCurrentUser, h1, h2, h3]
  · intro l h1 h2
    rcases hab : autoBackupCurrentUser env with ⟨b, msgs, calls⟩
    rw [hab] at h2
    simp only at h2
    subst h2
    simp [refreshBackupList, h1, hab]

/-- Closed witness for C10: the three non-success outcomes evaluated at
concrete stores, and a refresh that still publishes its first read. -/
theorem auto_backup_total_witness :
    autoBackupCurrentUser envReadFail =
      (false, [("自动备份失败: " ++ "boom", true)], [Call.getCurrentInfo]) ∧
    autoBackupCurrentUser envWriteFail =
      (false, [("自动备份失败: " ++ "boom", true)],
       [Call.getCurrentInfo, Call.backupAccount okInfo.email]) ∧
    autoBackupCurrentUser envNoUser =
      (false, [("未检测到已登录的用户", false)], [Call.getCurrentInfo]) ∧
    (refreshBackupList false envNoUser s0).state.backups = ["a"] :=
  ⟨(auto_backup_total envReadFail s0 "boom" okInfo).1 rfl,
   (auto_backup_total envWriteFail s0 "boom" okInfo).2.1 rfl (Or.inl (by decide)) rfl,
   (auto_backup_total envNoUser s0 "boom" noUserInfo).2.2.1 rfl rfl rfl,
   ((auto_backup_total envNoUser s0 "boom" noUserInfo).2.2.2 ["a"] rfl rfl).1⟩
